import Mathlib

/-!
Verification of the data-ingestion and normalization pipeline of the
bank-loan dashboard (`src/app.py`) against its specification.

The embedding models:
* cells of a tabular dataset (`Cell`): a string, a rational number, or a
  missing marker (pandas `NaN`);
* a `Dataset` as an ordered association list of named columns
  (column-major view of a `pandas.DataFrame`);
* the numeric-coercion / derived-column pipeline `add_derived_columns`
  (the spec's `normalize`);
* the z-score outlier mask `zscore_outlier_mask`;
* the loader fallback logic `read_uploaded_file`, parameterized over the
  external CSV and spreadsheet parsers;
* the builtin sample fixture `SAMPLE_DATA` / `load_sample_df`.
-/

/-- One cell of a tabular dataset: a raw string, a numeric value
(rationals stand in for the Python floats), or the missing marker
(pandas `NaN`). -/
inductive Cell where
  | str (s : String)
  | num (q : ℚ)
  | missing
deriving DecidableEq, Repr

/-- Accumulate a list of decimal digit characters into a natural number. -/
def digitsToNat (cs : List Char) : ℕ :=
  cs.foldl (fun acc c => 10 * acc + (c.toNat - 48)) 0

/-- Whitespace characters removed by Python `str.strip`. -/
def isSpaceChar (c : Char) : Bool :=
  c == ' ' || c == '\t' || c == '\n' || c == '\r'

/-- Model of Python `str.strip`: drop leading and trailing whitespace. -/
def strStrip (s : String) : String :=
  ⟨((s.data.dropWhile isSpaceChar).reverse.dropWhile isSpaceChar).reverse⟩

/-- ASCII lowercasing of one character, as in Python `str.lower` on the
data of this app. -/
def lowerChar (c : Char) : Char :=
  if 'A' ≤ c ∧ c ≤ 'Z' then Char.ofNat (c.toNat + 32) else c

/-- Model of Python `str.lower`. -/
def strLower (s : String) : String := ⟨s.data.map lowerChar⟩

/-- Model of the numeric-literal parsing performed by `pd.to_numeric`
(external library): optional surrounding whitespace, optional sign,
decimal digits with an optional fractional part; anything else fails to
parse. -/
def parseNum (s : String) : Option ℚ :=
  let cs := (strStrip s).data
  let (sign, body) : ℚ × List Char :=
    match cs with
    | '-' :: rest => (-1, rest)
    | '+' :: rest => (1, rest)
    | cs => (1, cs)
  let intPart := body.takeWhile Char.isDigit
  match body.dropWhile Char.isDigit with
  | [] =>
      if intPart.length > 0 then some (sign * (digitsToNat intPart : ℚ))
      else none
  | '.' :: frac =>
      if (intPart.length > 0 || frac.length > 0) && frac.all Char.isDigit then
        some (sign * ((digitsToNat intPart : ℚ)
          + (digitsToNat frac : ℚ) / (10 ^ frac.length)))
      else none
  | _ => none

/-- Model of `pd.to_numeric(cell, errors="coerce")` on one cell: numbers pass
through, strings are parsed, anything unparseable becomes missing. -/
def toNumericCell (c : Cell) : Cell :=
  match c with
  | .num q => .num q
  | .missing => .missing
  | .str s =>
      match parseNum s with
      | some q => .num q
      | none => .missing

/-- Applying `.fillna(0)` to one cell: the missing marker becomes the number 0. -/
def fillna0Cell (c : Cell) : Cell :=
  match c with
  | .missing => .num 0
  | c => c

/-- The numeric value of a cell after coercion, with missing read as 0 —
the `_safe` reading used by the spec for the `TotalIncome` sum. -/
def safeVal (c : Cell) : ℚ :=
  match toNumericCell c with
  | .num q => q
  | _ => 0

/-- Elementwise addition of two cells.  In the pipeline both operands are
always numeric (coercion followed by `fillna(0)`); the remaining cases
are unreachable there and default to missing. -/
def cellAdd (a b : Cell) : Cell :=
  match a, b with
  | .num x, .num y => .num (x + y)
  | _, _ => .missing

/-- Applying `astype(str)` to one cell: pandas renders `NaN` as the string
`"nan"` and numbers via their decimal representation. -/
def cellToStr (c : Cell) : String :=
  match c with
  | .str s => s
  | .num q => toString q
  | .missing => "nan"

/-- The per-row `Loan_Approved` value: 1 when the trimmed, lowercased
status text equals `"approved"`, else 0
(`.str.strip().str.lower().map(lambda x: 1 if x == "approved" else 0)`). -/
def loanApprovedFlag (c : Cell) : Cell :=
  if strLower (strStrip (cellToStr c)) = "approved" then .num 1 else .num 0

/-- A dataset: an ordered association list of named columns.  The spec's
invariant (unique column names) is stated where a proof needs it. -/
abbrev Dataset : Type := List (String × List Cell)

/-- The column names of a dataset, in order. -/
def keys (df : Dataset) : List String := df.map Prod.fst

/-- Membership test `col in df.columns`. -/
def hasCol (df : Dataset) (name : String) : Bool :=
  df.any (fun p => p.1 == name)

/-- Column lookup `df[name]`, as an option: the first column with the given name. -/
def getCol (df : Dataset) (name : String) : Option (List Cell) :=
  (df.find? (fun p => p.1 == name)).map Prod.snd

/-- Column assignment `df[name] = cells`: replace the column in place when the name exists,
otherwise append it at the end (pandas column-assignment semantics). -/
def setCol (df : Dataset) (name : String) (cells : List Cell) : Dataset :=
  if hasCol df name then
    df.map (fun p => if p.1 == name then (name, cells) else p)
  else
    df ++ [(name, cells)]

/-- The fixed known-numeric column set of the coercion loop. -/
def numericCols : List String :=
  ["ApplicantIncome", "CoapplicantIncome", "LoanAmount", "Age",
   "Loan_Term_months", "Credit_History"]

/-- One iteration of the coercion loop:
`if col in df.columns: df[col] = pd.to_numeric(df[col], errors="coerce")`. -/
def coerceStep (df : Dataset) (col : String) : Dataset :=
  match getCol df col with
  | some cells => setCol df col (cells.map toNumericCell)
  | none => df

/-- The whole coercion loop over the known-numeric columns. -/
def coerceNumeric (df : Dataset) : Dataset :=
  numericCols.foldl coerceStep df

/-- Result of `df.get(name, 0)`: the column when present, otherwise the
scalar default `0` (a plain Python `int`). -/
inductive GetResult where
  | col (cells : List Cell)
  | scalar (n : ℤ)

/-- Lookup `df.get(name, 0)`. -/
def dfGet (df : Dataset) (name : String) : GetResult :=
  match getCol df name with
  | some cells => .col cells
  | none => .scalar 0

/-- Applying `.fillna(0)` to the result of `df.get`: defined on a series, but on
the scalar `int` default it raises `AttributeError` — the `int` type has
no `fillna` method. -/
def fillnaZero (r : GetResult) : Except String (List Cell) :=
  match r with
  | .col cells => .ok (cells.map fillna0Cell)
  | .scalar _ => .error "AttributeError: int object has no attribute fillna"

/-- The `TotalIncome` series:
`df.get("ApplicantIncome", 0).fillna(0) + df.get("CoapplicantIncome", 0).fillna(0)`. -/
def totalIncomeCol (df : Dataset) : Except String (List Cell) := do
  let a ← fillnaZero (dfGet df "ApplicantIncome")
  let c ← fillnaZero (dfGet df "CoapplicantIncome")
  return List.zipWith cellAdd a c

/-- Function `add_derived_columns` — the spec's `normalize`: coerce the known
numeric columns, add `TotalIncome`, and add `Loan_Approved` when a
`Loan_Status` column exists. -/
def add_derived_columns (df : Dataset) : Except String Dataset := do
  let df1 := coerceNumeric df
  let ti ← totalIncomeCol df1
  let df2 := setCol df1 "TotalIncome" ti
  let df3 :=
    if hasCol df2 "Loan_Status" then
      setCol df2 "Loan_Approved"
        (((getCol df2 "Loan_Status").getD []).map loanApprovedFlag)
    else df2
  return df3

/-- The builtin 10-row sample fixture, row-major, as in `SAMPLE_DATA`. -/
def SAMPLE_DATA : List (List Cell) :=
  [[.str "C001", .str "Male", .num 35, .str "Married", .str "Graduate",
    .num 5400, .num 1500, .num 128, .num 360, .num 1, .str "Urban", .str "Approved"],
   [.str "C002", .str "Female", .num 29, .str "Single", .str "Graduate",
    .num 3200, .num 0, .num 66, .num 360, .num 1, .str "Semiurban", .str "Rejected"],
   [.str "C003", .str "Male", .num 42, .str "Married", .str "Not Graduate",
    .num 4300, .num 1200, .num 100, .num 180, .num 0, .str "Rural", .str "Rejected"],
   [.str "C004", .str "Male", .num 28, .str "Single", .str "Graduate",
    .num 6000, .num 0, .num 141, .num 360, .num 1, .str "Urban", .str "Approved"],
   [.str "C005", .str "Female", .num 33, .str "Married", .str "Graduate",
    .num 2500, .num 2500, .num 85, .num 240, .num 1, .str "Semiurban", .str "Approved"],
   [.str "C006", .str "Male", .num 45, .str "Married", .str "Not Graduate",
    .num 4000, .num 0, .num 115, .num 360, .num 0, .str "Rural", .str "Rejected"],
   [.str "C007", .str "Female", .num 31, .str "Single", .str "Graduate",
    .num 3500, .num 1200, .num 90, .num 360, .num 1, .str "Urban", .str "Approved"],
   [.str "C008", .str "Male", .num 50, .str "Married", .str "Graduate",
    .num 8000, .num 0, .num 200, .num 360, .num 1, .str "Urban", .str "Approved"],
   [.str "C009", .str "Female", .num 27, .str "Single", .str "Graduate",
    .num 2500, .num 0, .num 75, .num 180, .num 0, .str "Rural", .str "Rejected"],
   [.str "C010", .str "Male", .num 39, .str "Married", .str "Graduate",
    .num 4200, .num 1500, .num 130, .num 360, .num 1, .str "Semiurban", .str "Approved"]]

/-- The fixture's 12 column names, in order (`DEFAULT_COLS`). -/
def DEFAULT_COLS : List String :=
  ["Customer_ID", "Gender", "Age", "Marital_Status", "Education",
   "ApplicantIncome", "CoapplicantIncome", "LoanAmount", "Loan_Term_months",
   "Credit_History", "Property_Area", "Loan_Status"]

/-- Construction `pd.DataFrame(SAMPLE_DATA, columns=DEFAULT_COLS)`: pair the `j`-th
column name with the `j`-th entry of every row. -/
def load_sample_df : Dataset :=
  (List.range DEFAULT_COLS.length).map
    (fun j => (DEFAULT_COLS.getD j "", SAMPLE_DATA.map (fun row => row.getD j .missing)))

/-- The non-missing values of a series (`series.dropna()`). -/
def nonmissing (s : List (Option ℚ)) : List ℚ := s.filterMap id

/-- The mean of a list of rationals (`Series.mean`); 0 on the empty list
(where pandas yields `NaN`, caught by the mask's guard before use). -/
def listMean (l : List ℚ) : ℚ := l.sum / l.length

/-- The population variance (`ddof = 0`) of a list of rationals; 0 on the
empty list (where pandas yields `NaN`, caught by the mask's guard). -/
def listVar (l : List ℚ) : ℚ :=
  ((l.map (fun x => (x - listMean l) ^ 2)).sum) / l.length

/-- The population standard deviation `Series.std(ddof=0)`, as a real:
the square root of the population variance. -/
noncomputable def listStd (l : List ℚ) : ℝ := Real.sqrt (listVar l)

/-- Function `zscore_outlier_mask(series, threshold)`.  A series is a list of
optional rationals (missing = `NaN`).  The source drops the missing
values, takes their mean and population standard deviation, returns the
all-`False` mask when the deviation is zero (`std == 0`) or undefined
(`pd.isna(std)`, the empty case), and otherwise marks row `i` when
`|series[i] - mean| / std > threshold`; a missing row propagates `NaN`
through the comparison, which pandas evaluates to `False`.
The per-row test here is the decidable rational form of that comparison:
for `threshold ≥ 0`, `|v - mean| / sqrt var > threshold` iff
`(v - mean)^2 > threshold^2 * var` (proved in
`mask_cond_iff_div_sqrt` below); for `threshold < 0` every non-missing
row satisfies `|z| > threshold`. -/
def zscore_outlier_mask (series : List (Option ℚ)) (threshold : ℚ) : List Bool :=
  let s := nonmissing series
  let mean := listMean s
  let var := listVar s
  if s.length = 0 ∨ var = 0 then
    series.map (fun _ => false)
  else
    series.map (fun c =>
      match c with
      | none => false
      | some v =>
          if threshold < 0 then true
          else decide ((v - mean) ^ 2 > threshold ^ 2 * var))

/-- A parser of uploaded streams (the external `pd.read_csv` /
`pd.read_excel` collaborators): from a stream position and the stream's
bytes, either a dataset or an error message, together with the stream
position it leaves behind. -/
def StreamParser : Type := ℕ → List UInt8 → (Except String Dataset × ℕ)

/-- Function `read_uploaded_file`: try the CSV parser from the current position;
on failure `seek(0)` and try the spreadsheet parser; if that also fails,
re-raise the exception bound by `except Exception as e` — the one from
the spreadsheet attempt. -/
def read_uploaded_file (readCsv readExcel : StreamParser)
    (pos : ℕ) (data : List UInt8) : Except String Dataset :=
  match readCsv pos data with
  | (.ok df, _) => .ok df
  | (.error _e1, _) =>
      match readExcel 0 data with
      | (.ok df, _) => .ok df
      | (.error e2, _) => .error e2


instance {e a : Type} [DecidableEq e] [DecidableEq a] : DecidableEq (Except e a) := fun x y =>
  match x, y with
  | .ok u, .ok v =>
      if h : u = v then .isTrue (by rw [h]) else .isFalse (by simp [h])
  | .error u, .error v =>
      if h : u = v then .isTrue (by rw [h]) else .isFalse (by simp [h])
  | .ok _, .error _ => .isFalse (by simp)
  | .error _, .ok _ => .isFalse (by simp)

/-- Numeric coercion is idempotent on a cell. -/
theorem toNumericCell_idem (c : Cell) :
    toNumericCell (toNumericCell c) = toNumericCell c := by
  cases c with
  | num q => rfl
  | missing => rfl
  | str s => cases h : parseNum s <;> simp [toNumericCell, h]

/-- Numeric coercion is idempotent on a whole column. -/
theorem map_toNumericCell_idem (l : List Cell) :
    (l.map toNumericCell).map toNumericCell = l.map toNumericCell := by
  rw [List.map_map]
  exact List.map_congr_left (fun c _ => toNumericCell_idem c)

/-- Coercing then filling missing with 0 yields exactly the safe numeric
value of the cell. -/
theorem fillna0_toNumeric (c : Cell) :
    fillna0Cell (toNumericCell c) = Cell.num (safeVal c) := by
  cases c with
  | num q => rfl
  | missing => rfl
  | str s => cases h : parseNum s <;> simp [toNumericCell, fillna0Cell, safeVal, h]

/-- A dataset without a column named `n` has no entry accepted by the
lookup predicate for `n`. -/
theorem find?_eq_none_of_hasCol_false {df : Dataset} {n : String}
    (h : hasCol df n = false) : df.find? (fun p => p.1 == n) = none := by
  rw [List.find?_eq_none]
  intro p hp
  simp only [hasCol, List.any_eq_false] at h
  exact h p hp

/-- Lookup fails on an absent column. -/
theorem getCol_eq_none {df : Dataset} {n : String}
    (h : hasCol df n = false) : getCol df n = none := by
  simp [getCol, find?_eq_none_of_hasCol_false h]

/-- A successful lookup implies column membership. -/
theorem hasCol_of_getCol {df : Dataset} {n : String} {cells : List Cell}
    (h : getCol df n = some cells) : hasCol df n = true := by
  cases hc : hasCol df n with
  | true => rfl
  | false => rw [getCol_eq_none hc] at h; exact absurd h (by simp)

/-- Column membership expressed through the key list. -/
theorem hasCol_eq_keys (df : Dataset) (n : String) :
    hasCol df n = (keys df).any (fun s => s == n) := by
  induction df with
  | nil => rfl
  | cons p rest ih =>
      simp only [hasCol, keys, List.map_cons, List.any_cons] at *
      rw [ih]

/-- Column membership is membership of the key list. -/
theorem hasCol_iff_mem {df : Dataset} {n : String} :
    hasCol df n = true ↔ n ∈ keys df := by
  rw [hasCol_eq_keys, List.any_eq_true]
  constructor
  · rintro ⟨s, hs, hsn⟩
    rw [beq_iff_eq] at hsn
    rwa [← hsn]
  · intro hmem
    exact ⟨n, hmem, by simp⟩

/-- Replacing the content of column `n` rewrites the matching entries and
finds the new content when the column exists. -/
theorem find?_map_replace (df : Dataset) (n : String) (cells : List Cell)
    (h : hasCol df n = true) :
    (df.map (fun p => if p.1 == n then (n, cells) else p)).find?
      (fun p => p.1 == n) = some (n, cells) := by
  induction df with
  | nil => simp [hasCol] at h
  | cons p rest ih =>
      rw [List.map_cons]
      cases hp : (p.1 == n) with
      | true =>
          rw [if_pos rfl, List.find?_cons_of_pos _ (by simp)]
      | false =>
          have hrest : hasCol rest n = true := by
            simp only [hasCol, List.any_cons, hp, Bool.false_or] at h
            exact h
          rw [if_neg (by simp), List.find?_cons_of_neg _ (by simp [hp])]
          exact ih hrest

/-- Replacing column `n` does not change lookups of a different name. -/
theorem find?_map_replace_ne (df : Dataset) (n m : String) (cells : List Cell)
    (h : m ≠ n) :
    (df.map (fun p => if p.1 == n then (n, cells) else p)).find?
      (fun p => p.1 == m) = df.find? (fun p => p.1 == m) := by
  induction df with
  | nil => rfl
  | cons p rest ih =>
      rw [List.map_cons]
      have hnm : ((n, cells).1 == m) = false := by
        simp only [beq_eq_false_iff_ne, ne_eq]
        exact fun he => h he.symm
      cases hp : (p.1 == n) with
      | true =>
          have hpm : (p.1 == m) = false := by
            rw [show p.1 = n by simpa using hp]
            exact hnm
          rw [if_pos rfl, List.find?_cons_of_neg _ (by simp [hnm]),
            List.find?_cons_of_neg _ (by simp [hpm])]
          exact ih
      | false =>
          rw [if_neg (by simp)]
          cases hm : (p.1 == m) with
          | true =>
              have hm' : ((fun q : String × List Cell => q.1 == m) p) = true := hm
              rw [@List.find?_cons_of_pos _ (fun q => q.1 == m) p
                    (List.map (fun q => if (q.1 == n) = true then (n, cells) else q) rest) hm',
                  @List.find?_cons_of_pos _ (fun q => q.1 == m) p rest hm']
          | false =>
              rw [List.find?_cons_of_neg _ (by simp [hm]),
                List.find?_cons_of_neg _ (by simp [hm])]
              exact ih

/-- Replacing an absent column is the identity on the entry list. -/
theorem map_replace_id_of_hasCol_false (df : Dataset) (n : String)
    (cells : List Cell) (h : hasCol df n = false) :
    df.map (fun p => if p.1 == n then (n, cells) else p) = df := by
  induction df with
  | nil => rfl
  | cons p rest ih =>
      simp only [hasCol, List.any_cons, Bool.or_eq_false_iff] at h
      obtain ⟨hp, hrest⟩ := h
      simp only [List.map_cons]
      rw [ih hrest]
      simp [hp]

/-- After a column assignment, looking up the assigned name yields the
assigned content. -/
theorem getCol_setCol_self (df : Dataset) (n : String) (cells : List Cell) :
    getCol (setCol df n cells) n = some cells := by
  unfold setCol
  cases hc : hasCol df n with
  | true =>
      simp only [if_pos]
      rw [getCol, find?_map_replace df n cells hc]
      rfl
  | false =>
      simp only [Bool.false_eq_true, if_neg, not_false_eq_true]
      rw [getCol, List.find?_append, find?_eq_none_of_hasCol_false hc]
      simp [List.find?_cons_of_pos]

/-- A column assignment does not change lookups of other names. -/
theorem getCol_setCol_ne (df : Dataset) (n m : String) (cells : List Cell)
    (h : m ≠ n) : getCol (setCol df n cells) m = getCol df m := by
  unfold setCol
  cases hc : hasCol df n with
  | true =>
      simp only [if_pos]
      rw [getCol, find?_map_replace_ne df n m cells h]
      rfl
  | false =>
      simp only [Bool.false_eq_true, if_neg, not_false_eq_true]
      rw [getCol, List.find?_append]
      have : List.find? (fun p => p.1 == m) [(n, cells)] = none := by
        rw [List.find?_eq_none]
        intro x hx
        simp only [List.mem_singleton] at hx
        subst hx
        simp only [beq_iff_eq]
        exact fun he => h he.symm
      rw [this]
      simp [getCol]

/-- Column assignment keeps the key list when the name exists and
appends it otherwise. -/
theorem keys_setCol (df : Dataset) (n : String) (cells : List Cell) :
    keys (setCol df n cells) =
      if hasCol df n then keys df else keys df ++ [n] := by
  unfold setCol
  cases hc : hasCol df n with
  | true =>
      simp only [if_pos]
      rw [keys, keys, List.map_map]
      apply List.map_congr_left
      intro p _
      by_cases hp : p.1 = n
      · simp [Function.comp, hp]
      · simp [Function.comp, hp]
  | false =>
      simp only [Bool.false_eq_true, if_neg, not_false_eq_true]
      rw [keys, keys, List.map_append]
      rfl

/-- A column assignment does not change membership of other names. -/
theorem hasCol_setCol_ne (df : Dataset) (n m : String) (cells : List Cell)
    (h : m ≠ n) : hasCol (setCol df n cells) m = hasCol df m := by
  rw [hasCol_eq_keys, hasCol_eq_keys, keys_setCol]
  cases hc : hasCol df n with
  | true => simp
  | false =>
      simp only [Bool.false_eq_true, if_neg, not_false_eq_true]
      rw [List.any_append]
      have : [n].any (fun s => s == m) = false := by
        simp only [List.any_cons, List.any_nil, Bool.or_false, beq_eq_false_iff_ne, ne_eq]
        exact fun he => h he.symm
      rw [this, Bool.or_false]

/-- Assigning to a column the content it already has is the identity,
when column names are unique. -/
theorem setCol_eq_self {df : Dataset} {n : String} {cells : List Cell}
    (hnd : (keys df).Nodup) (h : getCol df n = some cells) :
    setCol df n cells = df := by
  unfold setCol
  rw [if_pos (hasCol_of_getCol h)]
  induction df with
  | nil => simp [getCol] at h
  | cons p rest ih =>
      rw [keys, List.map_cons, List.nodup_cons] at hnd
      obtain ⟨hnin, hndrest⟩ := hnd
      rw [List.map_cons]
      cases hp : (p.1 == n) with
      | true =>
          have hpn : p.1 = n := by simpa using hp
          rw [getCol, @List.find?_cons_of_pos _ (fun q => q.1 == n) p rest hp] at h
          have h : p.2 = cells := by simpa using h
          have hrest : hasCol rest n = false := by
            cases hr : hasCol rest n with
            | false => rfl
            | true =>
                rw [hasCol_iff_mem] at hr
                rw [hpn] at hnin
                exact absurd hr hnin
          rw [if_pos rfl]
          rw [map_replace_id_of_hasCol_false rest n cells hrest]
          rw [← h, ← hpn]
      | false =>
          have hrest : getCol rest n = some cells := by
            rw [getCol, @List.find?_cons_of_neg _ (fun q => q.1 == n) p rest (by simp [hp])] at h
            exact h
          rw [if_neg (by simp), ih hndrest hrest]

/-- A column assignment leaves every entry of a different name in place:
same index, same name, same cells. -/
theorem setCol_getElem?_preserve {df : Dataset} {n nm : String}
    {cs cells : List Cell} {i : ℕ} (hne : nm ≠ n)
    (hi : df[i]? = some (nm, cs)) :
    (setCol df n cells)[i]? = some (nm, cs) := by
  unfold setCol
  cases hc : hasCol df n with
  | true =>
      simp only [if_pos]
      rw [List.getElem?_map, hi]
      have hb : ((nm, cs).1 == n) = false := by simpa using hne
      show some (if ((nm, cs).1 == n) = true then (n, cells) else (nm, cs)) = some (nm, cs)
      rw [hb]
      simp
  | false =>
      simp only [Bool.false_eq_true, if_neg, not_false_eq_true]
      have hlt : i < df.length := by
        rcases List.getElem?_eq_some.mp hi with ⟨hl, _⟩
        exact hl
      rw [List.getElem?_append, if_pos hlt]
      exact hi

/-- Coercing column `c` rewrites exactly that column's lookup. -/
theorem getCol_coerceStep_self (df : Dataset) (c : String) :
    getCol (coerceStep df c) c = (getCol df c).map (List.map toNumericCell) := by
  cases h : getCol df c with
  | none => simp [coerceStep, h]
  | some cells => simp [coerceStep, h, getCol_setCol_self]

/-- Coercing column `c` leaves lookups of other names unchanged. -/
theorem getCol_coerceStep_ne (df : Dataset) (c m : String) (h : m ≠ c) :
    getCol (coerceStep df c) m = getCol df m := by
  cases hg : getCol df c with
  | none => simp [coerceStep, hg]
  | some cells => simp [coerceStep, hg, getCol_setCol_ne _ _ _ _ h]

/-- One coercion step keeps the key list. -/
theorem keys_coerceStep (df : Dataset) (c : String) :
    keys (coerceStep df c) = keys df := by
  cases hg : getCol df c with
  | none => simp [coerceStep, hg]
  | some cells =>
      simp only [coerceStep, hg]
      rw [keys_setCol, if_pos (hasCol_of_getCol hg)]

/-- Coercing a list of column names rewrites exactly the listed columns;
a repeated name is harmless because coercion is idempotent. -/
theorem getCol_foldl_coerce (names : List String) (df : Dataset) (c : String) :
    getCol (names.foldl coerceStep df) c =
      if c ∈ names then (getCol df c).map (List.map toNumericCell)
      else getCol df c := by
  induction names generalizing df with
  | nil => simp
  | cons n names ih =>
      rw [List.foldl_cons, ih (coerceStep df n)]
      by_cases hcn : c = n
      · subst hcn
        by_cases hmem : c ∈ names
        · rw [if_pos hmem, if_pos (List.mem_cons_self _ _), getCol_coerceStep_self]
          cases hg : getCol df c with
          | none => rfl
          | some l => exact congrArg some (map_toNumericCell_idem l)
        · rw [if_neg hmem, if_pos (List.mem_cons_self _ _), getCol_coerceStep_self]
      · rw [getCol_coerceStep_ne df n c hcn]
        by_cases hmem : c ∈ names
        · rw [if_pos hmem, if_pos (List.mem_cons_of_mem _ hmem)]
        · rw [if_neg hmem, if_neg (by simp [hcn, hmem])]

/-- The whole coercion fold keeps the key list. -/
theorem keys_foldl_coerce (names : List String) (df : Dataset) :
    keys (names.foldl coerceStep df) = keys df := by
  induction names generalizing df with
  | nil => rfl
  | cons n names ih => rw [List.foldl_cons, ih, keys_coerceStep]

/-- One coercion step leaves entries of other names in place. -/
theorem coerceStep_getElem?_preserve {df : Dataset} {c nm : String}
    {cs : List Cell} {i : ℕ} (hne : nm ≠ c)
    (hi : df[i]? = some (nm, cs)) :
    (coerceStep df c)[i]? = some (nm, cs) := by
  cases hg : getCol df c with
  | none => simpa [coerceStep, hg] using hi
  | some cells =>
      simp only [coerceStep, hg]
      exact setCol_getElem?_preserve hne hi

/-- The coercion fold leaves entries of unlisted names in place. -/
theorem foldl_coerce_getElem?_preserve (names : List String) {df : Dataset}
    {nm : String} {cs : List Cell} {i : ℕ} (hnm : nm ∉ names)
    (hi : df[i]? = some (nm, cs)) :
    (names.foldl coerceStep df)[i]? = some (nm, cs) := by
  induction names generalizing df with
  | nil => exact hi
  | cons n names ih =>
      rw [List.foldl_cons]
      have h1 : nm ≠ n := fun he => hnm (he ▸ List.mem_cons_self _ _)
      have h2 : nm ∉ names := fun hm => hnm (List.mem_cons_of_mem _ hm)
      exact ih h2 (coerceStep_getElem?_preserve h1 hi)

/-- Reduction of the `TotalIncome` computation when both income columns
are present. -/
theorem totalIncomeCol_eq {df : Dataset} {a c : List Cell}
    (h1 : getCol df "ApplicantIncome" = some a)
    (h2 : getCol df "CoapplicantIncome" = some c) :
    totalIncomeCol df =
      Except.ok (List.zipWith cellAdd (a.map fillna0Cell) (c.map fillna0Cell)) := by
  simp [totalIncomeCol, dfGet, h1, h2, fillnaZero, Bind.bind, Except.bind, pure, Except.pure]

/-- Without an `ApplicantIncome` column, the `TotalIncome` computation
raises: `df.get` returns the scalar `0` and `int` has no `fillna`. -/
theorem totalIncomeCol_error_left {df : Dataset}
    (h1 : getCol df "ApplicantIncome" = none) :
    totalIncomeCol df =
      Except.error "AttributeError: int object has no attribute fillna" := by
  simp [totalIncomeCol, dfGet, h1, fillnaZero, Bind.bind, Except.bind]

/-- Without a `CoapplicantIncome` column, the `TotalIncome` computation
raises for the same reason. -/
theorem totalIncomeCol_error_right {df : Dataset} {a : List Cell}
    (h1 : getCol df "ApplicantIncome" = some a)
    (h2 : getCol df "CoapplicantIncome" = none) :
    totalIncomeCol df =
      Except.error "AttributeError: int object has no attribute fillna" := by
  simp [totalIncomeCol, dfGet, h1, h2, fillnaZero, Bind.bind, Except.bind]

/-- Reduction of `add_derived_columns` once the `TotalIncome` series is
known to compute successfully. -/
theorem add_derived_eq {df : Dataset} {ti : List Cell}
    (hti : totalIncomeCol (coerceNumeric df) = Except.ok ti) :
    add_derived_columns df = Except.ok (
      if hasCol (setCol (coerceNumeric df) "TotalIncome" ti) "Loan_Status" then
        setCol (setCol (coerceNumeric df) "TotalIncome" ti) "Loan_Approved"
          (((getCol (setCol (coerceNumeric df) "TotalIncome" ti) "Loan_Status").getD []).map
            loanApprovedFlag)
      else setCol (coerceNumeric df) "TotalIncome" ti) := by
  simp [add_derived_columns, hti, Bind.bind, Except.bind, pure, Except.pure]

/-- An error in the `TotalIncome` computation aborts the whole pipeline. -/
theorem add_derived_error {df : Dataset} {e : String}
    (hti : totalIncomeCol (coerceNumeric df) = Except.error e) :
    add_derived_columns df = Except.error e := by
  simp [add_derived_columns, hti, Bind.bind, Except.bind]

/-- The income-column lookups of the coerced dataset, in terms of the
original dataset. -/
theorem getCol_coerceNumeric_income (df : Dataset) :
    getCol (coerceNumeric df) "ApplicantIncome" =
      (getCol df "ApplicantIncome").map (List.map toNumericCell) ∧
    getCol (coerceNumeric df) "CoapplicantIncome" =
      (getCol df "CoapplicantIncome").map (List.map toNumericCell) := by
  constructor
  · rw [coerceNumeric, getCol_foldl_coerce, if_pos (by simp [numericCols])]
  · rw [coerceNumeric, getCol_foldl_coerce, if_pos (by simp [numericCols])]

/-- Lookups of names outside the known-numeric set pass through the
coercion loop unchanged. -/
theorem getCol_coerceNumeric_of_not_mem {df : Dataset} {c : String}
    (h : c ∉ numericCols) :
    getCol (coerceNumeric df) c = getCol df c := by
  rw [coerceNumeric, getCol_foldl_coerce, if_neg h]

/-- A successful normalization needs both income columns: otherwise the
`TotalIncome` computation raises `AttributeError`. -/
theorem normalize_ok_incomes {df : Dataset} {d' : Dataset}
    (h : add_derived_columns df = Except.ok d') :
    (∃ a, getCol df "ApplicantIncome" = some a) ∧
    (∃ c, getCol df "CoapplicantIncome" = some c) := by
  obtain ⟨hA, hC⟩ := getCol_coerceNumeric_income df
  cases ha : getCol df "ApplicantIncome" with
  | none =>
      rw [add_derived_error (totalIncomeCol_error_left (by rw [hA, ha]; rfl))] at h
      exact absurd h (by simp)
  | some a =>
      cases hc : getCol df "CoapplicantIncome" with
      | none =>
          rw [add_derived_error (totalIncomeCol_error_right
            (by rw [hA, ha]; rfl) (by rw [hC, hc]; rfl))] at h
          exact absurd h (by simp)
      | some c => exact ⟨⟨a, rfl⟩, ⟨c, rfl⟩⟩

/-- For a positive variance and nonnegative threshold, the squared
comparison used by the decidable mask is exactly the source's
`|d| / std > t` comparison with `std = sqrt var`. -/
theorem sq_cond_iff_div_sqrt {t var d : ℝ} (hvar : 0 < var) (ht : 0 ≤ t) :
    t ^ 2 * var < d ^ 2 ↔ t < |d| / Real.sqrt var := by
  have hs : 0 < Real.sqrt var := Real.sqrt_pos.mpr hvar
  rw [lt_div_iff₀ hs,
    ← pow_lt_pow_iff_left₀ (by positivity) (abs_nonneg d) two_ne_zero,
    mul_pow, Real.sq_sqrt hvar.le, sq_abs]

/-- A list whose elements are all equal has zero population variance. -/
theorem listVar_of_const {l : List ℚ} (h : ∀ x ∈ l, ∀ y ∈ l, x = y) :
    listVar l = 0 := by
  cases l with
  | nil => simp [listVar, listMean]
  | cons a rest =>
      have hmean : listMean (a :: rest) = a := by
        have hall : ∀ x ∈ a :: rest, x = a :=
          fun x hx => h x hx a (List.mem_cons_self _ _)
        rw [listMean, List.sum_eq_card_nsmul _ a hall, nsmul_eq_mul]
        have hlen : (((a :: rest).length : ℚ)) ≠ 0 :=
          Nat.cast_ne_zero.mpr (Nat.succ_ne_zero _)
        rw [mul_comm, mul_div_assoc, div_self hlen, mul_one]
      rw [listVar]
      have hz : ∀ x ∈ (a :: rest).map (fun x => (x - listMean (a :: rest)) ^ 2), x = 0 := by
        intro x hx
        rcases List.mem_map.mp hx with ⟨y, hy, hxy⟩
        rw [← hxy, hmean, h y hy a (List.mem_cons_self _ _)]
        ring
      rw [List.sum_eq_zero hz]
      simp

/-- A list with fewer than two elements is constant. -/
theorem const_of_short {l : List ℚ} (h : l.length < 2) :
    ∀ x ∈ l, ∀ y ∈ l, x = y := by
  intro x hx y hy
  cases l with
  | nil => simp at hx
  | cons a rest =>
      cases rest with
      | nil =>
          simp only [List.mem_singleton] at hx hy
          rw [hx, hy]
      | cons b r => simp [List.length_cons] at h; omega

/-- The empty list has zero population variance (the pandas `NaN` case is
caught by the same guard as the zero case). -/
theorem listVar_nil : listVar ([] : List ℚ) = 0 := by simp [listVar]

/-- When the variance over the non-missing values is non-zero, the mask
takes the per-row comparison branch. -/
theorem zscore_mask_of_var_ne {series : List (Option ℚ)} {t : ℚ}
    (hvar : listVar (nonmissing series) ≠ 0) :
    zscore_outlier_mask series t = series.map (fun c =>
      match c with
      | none => false
      | some v => if t < 0 then true
          else decide ((v - listMean (nonmissing series)) ^ 2 >
            t ^ 2 * listVar (nonmissing series))) := by
  have hlen : ¬ (nonmissing series).length = 0 := by
    intro h0
    exact hvar (by rw [List.length_eq_zero.mp h0]; exact listVar_nil)
  simp only [zscore_outlier_mask]
  rw [if_neg (by push_neg; exact ⟨hlen, hvar⟩)]


/-- Helper: the full normalized form of the builtin sample fixture. -/
theorem normalize_sample :
    add_derived_columns load_sample_df = Except.ok
      [("Customer_ID",
          [Cell.str "C001", Cell.str "C002", Cell.str "C003", Cell.str "C004", Cell.str "C005",
            Cell.str "C006", Cell.str "C007", Cell.str "C008", Cell.str "C009", Cell.str "C010"]),
        ("Gender",
          [Cell.str "Male", Cell.str "Female", Cell.str "Male", Cell.str "Male", Cell.str "Female",
            Cell.str "Male", Cell.str "Female", Cell.str "Male", Cell.str "Female", Cell.str "Male"]),
        ("Age",
          [Cell.num 35, Cell.num 29, Cell.num 42, Cell.num 28, Cell.num 33, Cell.num 45,
            Cell.num 31, Cell.num 50, Cell.num 27, Cell.num 39]),
        ("Marital_Status",
          [Cell.str "Married", Cell.str "Single", Cell.str "Married", Cell.str "Single",
            Cell.str "Married", Cell.str "Married", Cell.str "Single", Cell.str "Married",
            Cell.str "Single", Cell.str "Married"]),
        ("Education",
          [Cell.str "Graduate", Cell.str "Graduate", Cell.str "Not Graduate", Cell.str "Graduate",
            Cell.str "Graduate", Cell.str "Not Graduate", Cell.str "Graduate", Cell.str "Graduate",
            Cell.str "Graduate", Cell.str "Graduate"]),
        ("ApplicantIncome",
          [Cell.num 5400, Cell.num 3200, Cell.num 4300, Cell.num 6000, Cell.num 2500,
            Cell.num 4000, Cell.num 3500, Cell.num 8000, Cell.num 2500, Cell.num 4200]),
        ("CoapplicantIncome",
          [Cell.num 1500, Cell.num 0, Cell.num 1200, Cell.num 0, Cell.num 2500, Cell.num 0,
            Cell.num 1200, Cell.num 0, Cell.num 0, Cell.num 1500]),
        ("LoanAmount",
          [Cell.num 128, Cell.num 66, Cell.num 100, Cell.num 141, Cell.num 85, Cell.num 115,
            Cell.num 90, Cell.num 200, Cell.num 75, Cell.num 130]),
        ("Loan_Term_months",
          [Cell.num 360, Cell.num 360, Cell.num 180, Cell.num 360, Cell.num 240, Cell.num 360,
            Cell.num 360, Cell.num 360, Cell.num 180, Cell.num 360]),
        ("Credit_History",
          [Cell.num 1, Cell.num 1, Cell.num 0, Cell.num 1, Cell.num 1, Cell.num 0, Cell.num 1,
            Cell.num 1, Cell.num 0, Cell.num 1]),
        ("Property_Area",
          [Cell.str "Urban", Cell.str "Semiurban", Cell.str "Rural", Cell.str "Urban",
            Cell.str "Semiurban", Cell.str "Rural", Cell.str "Urban", Cell.str "Urban",
            Cell.str "Rural", Cell.str "Semiurban"]),
        ("Loan_Status",
          [Cell.str "Approved", Cell.str "Rejected", Cell.str "Rejected", Cell.str "Approved",
            Cell.str "Approved", Cell.str "Rejected", Cell.str "Approved", Cell.str "Approved",
            Cell.str "Rejected", Cell.str "Approved"]),
        ("TotalIncome",
          [Cell.num 6900, Cell.num 3200, Cell.num 5500, Cell.num 6000, Cell.num 5000,
            Cell.num 4000, Cell.num 4700, Cell.num 8000, Cell.num 2500, Cell.num 5700]),
        ("Loan_Approved",
          [Cell.num 1, Cell.num 0, Cell.num 0, Cell.num 1, Cell.num 1, Cell.num 0, Cell.num 1,
            Cell.num 1, Cell.num 0, Cell.num 1])] := by
  have hA : strLower (strStrip "Approved") = "approved" := by decide
  have hR : strLower (strStrip "Rejected") = "rejected" := by decide
  simp [add_derived_columns, coerceNumeric, numericCols, coerceStep, getCol, setCol, hasCol,
    totalIncomeCol, dfGet, fillnaZero, toNumericCell, fillna0Cell, cellAdd, cellToStr,
    load_sample_df, SAMPLE_DATA, DEFAULT_COLS, List.range_succ, loanApprovedFlag, hA, hR,
    Bind.bind, Except.bind, pure, Except.pure]
  norm_num

/-- C3: for a series with at least two non-missing values and non-zero
population standard deviation and a positive threshold, the mask marks
row `i` iff the row holds a non-missing value `v` with
`|v - mean| / std > threshold`; missing rows are never marked. -/
theorem outlierMask_marks_iff_zscore (series : List (Option ℚ)) (t : ℚ) (i : ℕ) (c : Option ℚ)
    (h2 : 2 ≤ (nonmissing series).length)
    (hstd : listStd (nonmissing series) ≠ 0)
    (ht : 0 < t)
    (hc : series[i]? = some c) :
    ((zscore_outlier_mask series t)[i]? = some true ↔
      ∃ v, c = some v ∧
        (t : ℝ) < |(v : ℝ) - (listMean (nonmissing series) : ℝ)| /
          listStd (nonmissing series)) := by
  rw [listStd] at hstd
  have hvarR : 0 < ((listVar (nonmissing series) : ℚ) : ℝ) :=
    Real.sqrt_ne_zero'.mp hstd
  have hvar : listVar (nonmissing series) ≠ 0 := by
    have hq : 0 < listVar (nonmissing series) := by exact_mod_cast hvarR
    exact ne_of_gt hq
  rw [zscore_mask_of_var_ne hvar, List.getElem?_map, hc]
  cases c with
  | none => simp
  | some v =>
      rw [Option.map_some']
      show some (if t < 0 then true
        else decide ((v - listMean (nonmissing series)) ^ 2 >
          t ^ 2 * listVar (nonmissing series))) = some true ↔ _
      rw [if_neg (not_lt.mpr ht.le)]
      simp only [Option.some.injEq, decide_eq_true_iff, gt_iff_lt]
      rw [← Rat.cast_lt (K := ℝ)]
      push_cast
      rw [listStd]
      constructor
      · intro hlt
        exact ⟨v, rfl,
          (sq_cond_iff_div_sqrt hvarR (by exact_mod_cast ht.le)).mp hlt⟩
      · rintro ⟨v', hv', hlt⟩
        subst hv'
        exact (sq_cond_iff_div_sqrt hvarR (by exact_mod_cast ht.le)).mpr hlt

/-- Witness for C3 at the series `[1, 1, 1, 1, 100]`, threshold `3/2`,
row 4. -/
theorem outlierMask_marks_iff_zscore_witness :
    2 ≤ (nonmissing [some 1, some 1, some 1, some 1, some (100:ℚ)]).length ∧
    listStd (nonmissing [some 1, some 1, some 1, some 1, some (100:ℚ)]) ≠ 0 ∧
    (0:ℚ) < 3/2 ∧
    ((zscore_outlier_mask [some 1, some 1, some 1, some 1, some (100:ℚ)] (3/2))[4]? = some true ↔
      ∃ v, (some (100:ℚ) : Option ℚ) = some v ∧
        ((3/2 : ℚ) : ℝ) <
          |(v : ℝ) - (listMean (nonmissing [some 1, some 1, some 1, some 1, some (100:ℚ)]) : ℝ)| /
          listStd (nonmissing [some 1, some 1, some 1, some 1, some (100:ℚ)])) := by
  have hstd : listStd (nonmissing [some 1, some 1, some 1, some 1, some (100:ℚ)]) ≠ 0 := by
    rw [listStd]
    apply Real.sqrt_ne_zero'.mpr
    rw [show nonmissing [some 1, some 1, some 1, some 1, some (100:ℚ)] = [1,1,1,1,100] by decide]
    rw [show listVar [1,1,1,1,(100:ℚ)] = 39204/25 by norm_num [listVar, listMean]]
    norm_num
  exact ⟨by decide, hstd, by norm_num,
    outlierMask_marks_iff_zscore _ _ 4 (some 100) (by decide) hstd (by norm_num) (by decide)⟩

/-- C4: a series with fewer than two non-missing values or all
non-missing values identical (zero or undefined standard deviation)
yields the all-false mask, for every threshold; the guard takes effect
before any division. -/
theorem outlierMask_degenerate_empty (series : List (Option ℚ)) (t : ℚ)
    (h : (nonmissing series).length < 2 ∨
      ∀ x ∈ nonmissing series, ∀ y ∈ nonmissing series, x = y) :
    zscore_outlier_mask series t = series.map (fun _ => false) := by
  have hvar : listVar (nonmissing series) = 0 := by
    rcases h with h | h
    · exact listVar_of_const (const_of_short h)
    · exact listVar_of_const h
  simp only [zscore_outlier_mask]
  rw [if_pos (Or.inr hvar)]

/-- Witness for C4 at a constant ten-row series of 100 with threshold 2
(the spec example of a constant LoanAmount column). -/
theorem outlierMask_degenerate_empty_witness :
    (∀ x ∈ nonmissing [some 100, some 100, some 100, some 100, some 100, some 100, some 100,
        some 100, some 100, some (100:ℚ)],
      ∀ y ∈ nonmissing [some 100, some 100, some 100, some 100, some 100, some 100, some 100,
        some 100, some 100, some (100:ℚ)], x = y) ∧
    zscore_outlier_mask [some 100, some 100, some 100, some 100, some 100, some 100, some 100,
        some 100, some 100, some (100:ℚ)] 2 =
      [false, false, false, false, false, false, false, false, false, false] :=
  ⟨by decide, outlierMask_degenerate_empty _ 2 (Or.inr (by decide))⟩

/-- C7: on the series `[1, 1, 1, 1, 100]` with threshold `1.5` the mask
marks exactly the row holding 100, with mean `20.8`, population standard
deviation `39.6`, and z-scores `0.5` and `2` exactly. -/
theorem outlierMask_example_series :
    listMean (nonmissing [some 1, some 1, some 1, some 1, some (100:ℚ)]) = 104/5 ∧
    listStd (nonmissing [some 1, some 1, some 1, some 1, some (100:ℚ)]) = 198/5 ∧
    |(1 : ℝ) - (listMean (nonmissing [some 1, some 1, some 1, some 1, some (100:ℚ)]) : ℝ)| /
        listStd (nonmissing [some 1, some 1, some 1, some 1, some (100:ℚ)]) = 1/2 ∧
    |(100 : ℝ) - (listMean (nonmissing [some 1, some 1, some 1, some 1, some (100:ℚ)]) : ℝ)| /
        listStd (nonmissing [some 1, some 1, some 1, some 1, some (100:ℚ)]) = 2 ∧
    zscore_outlier_mask [some 1, some 1, some 1, some 1, some (100:ℚ)] (3/2) =
      [false, false, false, false, true] := by
  have hnm : nonmissing [some 1, some 1, some 1, some 1, some (100:ℚ)] = [1,1,1,1,100] := by
    decide
  have hmean : listMean [1,1,1,1,(100:ℚ)] = 104/5 := by norm_num [listMean]
  have hvarq : listVar [1,1,1,1,(100:ℚ)] = 39204/25 := by norm_num [listVar, listMean]
  have hstd : listStd [1,1,1,1,(100:ℚ)] = 198/5 := by
    rw [listStd, hvarq]
    rw [show ((39204/25 : ℚ) : ℝ) = (198/5 : ℝ)^2 by norm_num]
    rw [Real.sqrt_sq (by norm_num)]
  have hvar : listVar (nonmissing [some 1, some 1, some 1, some 1, some (100:ℚ)]) ≠ 0 := by
    rw [hnm, hvarq]; norm_num
  refine ⟨by rw [hnm, hmean], by rw [hnm, hstd], ?_, ?_, ?_⟩
  · rw [hnm, hmean, hstd]
    rw [show |(1:ℝ) - ((104/5 : ℚ):ℝ)| = 99/5 by rw [abs_of_nonpos (by norm_num)]; norm_num]
    norm_num
  · rw [hnm, hmean, hstd]
    rw [show |(100:ℝ) - ((104/5 : ℚ):ℝ)| = 396/5 by rw [abs_of_nonneg (by norm_num)]; norm_num]
    norm_num
  · rw [zscore_mask_of_var_ne hvar, hnm, hmean, hvarq]
    simp only [List.map_cons, List.map_nil]
    rw [if_neg (by norm_num : ¬ ((3/2 : ℚ) < 0))]
    rw [decide_eq_false (by norm_num :
      ¬ (((1:ℚ) - 104/5)^2 > (3/2:ℚ)^2 * (39204/25)))]
    rw [decide_eq_true (by norm_num :
      (((100:ℚ) - 104/5)^2 > (3/2:ℚ)^2 * (39204/25)))]
    rw [if_neg (by norm_num : ¬ ((3/2 : ℚ) < 0))]

/-- C1: whenever both income columns are present and normalization
succeeds, the `TotalIncome` column is the row-wise sum of the coerced
incomes with missing read as 0. -/
theorem totalIncome_eq_safe_sum (df : Dataset) (as cs : List Cell) (d' : Dataset)
    (hA : getCol df "ApplicantIncome" = some as)
    (hC : getCol df "CoapplicantIncome" = some cs)
    (h : add_derived_columns df = Except.ok d') :
    getCol d' "TotalIncome" =
      some (List.zipWith (fun a c => Cell.num (safeVal a + safeVal c)) as cs) := by
  obtain ⟨h1, h2⟩ := getCol_coerceNumeric_income df
  rw [hA, Option.map_some'] at h1
  rw [hC, Option.map_some'] at h2
  have hti := totalIncomeCol_eq h1 h2
  rw [add_derived_eq hti] at h
  have hd2 := (Except.ok.inj h).symm
  have hsafe : List.zipWith cellAdd ((as.map toNumericCell).map fillna0Cell)
      ((cs.map toNumericCell).map fillna0Cell) =
      List.zipWith (fun a c => Cell.num (safeVal a + safeVal c)) as cs := by
    rw [List.map_map, List.map_map, List.zipWith_map]
    have hpt : ∀ a c, cellAdd ((fillna0Cell ∘ toNumericCell) a) ((fillna0Cell ∘ toNumericCell) c)
        = Cell.num (safeVal a + safeVal c) := by
      intro a c
      show cellAdd (fillna0Cell (toNumericCell a)) (fillna0Cell (toNumericCell c)) = _
      rw [fillna0_toNumeric, fillna0_toNumeric]
      rfl
    simp only [hpt]
  rw [hd2]
  by_cases hls : hasCol (setCol (coerceNumeric df) "TotalIncome"
      (List.zipWith cellAdd ((as.map toNumericCell).map fillna0Cell)
        ((cs.map toNumericCell).map fillna0Cell))) "Loan_Status" = true
  · rw [if_pos hls, getCol_setCol_ne _ _ _ _ (by decide), getCol_setCol_self, hsafe]
  · rw [if_neg hls, getCol_setCol_self, hsafe]

/-- The coercion loop does not add or remove columns. -/
theorem hasCol_coerceNumeric (df : Dataset) (m : String) :
    hasCol (coerceNumeric df) m = hasCol df m := by
  rw [hasCol_eq_keys, hasCol_eq_keys, coerceNumeric, keys_foldl_coerce]

/-- C2: with both income columns present, normalization succeeds; it
adds no `Loan_Approved` column when `Loan_Status` is absent, and when
`Loan_Status` is present the flag column holds 1 exactly for rows whose
trimmed, lowercased status text equals "approved" and 0 otherwise. -/
theorem loanApproved_iff_status (df : Dataset) (as cs : List Cell)
    (hA : getCol df "ApplicantIncome" = some as)
    (hC : getCol df "CoapplicantIncome" = some cs) :
    ∃ d', add_derived_columns df = Except.ok d' ∧
      (hasCol df "Loan_Status" = false →
        hasCol d' "Loan_Approved" = hasCol df "Loan_Approved") ∧
      (∀ st, getCol df "Loan_Status" = some st →
        getCol d' "Loan_Approved" = some (st.map (fun c =>
          if strLower (strStrip (cellToStr c)) = "approved" then Cell.num 1
          else Cell.num 0))) := by
  obtain ⟨h1, h2⟩ := getCol_coerceNumeric_income df
  rw [hA, Option.map_some'] at h1
  rw [hC, Option.map_some'] at h2
  refine ⟨_, add_derived_eq (totalIncomeCol_eq h1 h2), ?_, ?_⟩
  · intro hls
    have hls2 : hasCol (setCol (coerceNumeric df) "TotalIncome"
        (List.zipWith cellAdd ((as.map toNumericCell).map fillna0Cell)
          ((cs.map toNumericCell).map fillna0Cell))) "Loan_Status" = false := by
      rw [hasCol_setCol_ne _ _ _ _ (by decide), hasCol_coerceNumeric, hls]
    rw [if_neg (by rw [hls2]; exact Bool.false_ne_true)]
    rw [hasCol_setCol_ne _ _ _ _ (by decide), hasCol_coerceNumeric]
  · intro st hst
    have hls2 : hasCol (setCol (coerceNumeric df) "TotalIncome"
        (List.zipWith cellAdd ((as.map toNumericCell).map fillna0Cell)
          ((cs.map toNumericCell).map fillna0Cell))) "Loan_Status" = true := by
      rw [hasCol_setCol_ne _ _ _ _ (by decide), hasCol_coerceNumeric]
      exact hasCol_of_getCol hst
    rw [if_pos hls2, getCol_setCol_self]
    have hget : getCol (setCol (coerceNumeric df) "TotalIncome"
        (List.zipWith cellAdd ((as.map toNumericCell).map fillna0Cell)
          ((cs.map toNumericCell).map fillna0Cell))) "Loan_Status" = some st := by
      rw [getCol_setCol_ne _ _ _ _ (by decide), getCol_coerceNumeric_of_not_mem (by decide), hst]
    rw [hget]
    simp only [Option.getD_some]
    exact congrArg some (List.map_congr_left (fun c _ => by simp [loanApprovedFlag]))

/-- C9 (code bug): on a dataset lacking `ApplicantIncome`, `normalize`
does not degrade gracefully — `df.get` returns the scalar `0` and the
`.fillna(0)` call raises `AttributeError`, aborting the pipeline. -/
theorem normalize_missing_income_raises :
    add_derived_columns [("CoapplicantIncome", [Cell.num 1])] =
      Except.error "AttributeError: int object has no attribute fillna" := by
  simp [add_derived_columns, coerceNumeric, numericCols, coerceStep, getCol, setCol, hasCol,
    totalIncomeCol, dfGet, fillnaZero, toNumericCell, Bind.bind, Except.bind]

/-- C10: every column whose name is neither in the known-numeric set nor
`TotalIncome` nor `Loan_Approved` passes through `normalize` unchanged:
same index, same name, same cell values. -/
theorem normalize_frame_preserves_other_columns (df d' : Dataset) (i : ℕ)
    (nm : String) (cs : List Cell)
    (h : add_derived_columns df = Except.ok d')
    (hi : df[i]? = some (nm, cs))
    (hnum : nm ∉ numericCols) (hTI : nm ≠ "TotalIncome") (hLA : nm ≠ "Loan_Approved") :
    d'[i]? = some (nm, cs) := by
  obtain ⟨⟨as, hA⟩, ⟨cs2, hC⟩⟩ := normalize_ok_incomes h
  obtain ⟨h1, h2⟩ := getCol_coerceNumeric_income df
  rw [hA, Option.map_some'] at h1
  rw [hC, Option.map_some'] at h2
  rw [add_derived_eq (totalIncomeCol_eq h1 h2)] at h
  have hd2 := (Except.ok.inj h).symm
  rw [hd2]
  have hstep1 : (coerceNumeric df)[i]? = some (nm, cs) := by
    rw [coerceNumeric]
    exact foldl_coerce_getElem?_preserve numericCols hnum hi
  by_cases hls : hasCol (setCol (coerceNumeric df) "TotalIncome"
      (List.zipWith cellAdd ((as.map toNumericCell).map fillna0Cell)
        ((cs2.map toNumericCell).map fillna0Cell))) "Loan_Status" = true
  · rw [if_pos hls]
    exact setCol_getElem?_preserve hLA (setCol_getElem?_preserve hTI hstep1)
  · rw [if_neg hls]
    exact setCol_getElem?_preserve hTI hstep1

/-- A stub CSV parser that always fails (binary garbage input). -/
def csvFail : StreamParser := fun pos _ => (Except.error "csv parse failure", pos)

/-- A stub spreadsheet parser that always fails. -/
def excelFail : StreamParser := fun pos _ => (Except.error "excel parse failure", pos)

/-- C5 counterexample: when both parsers fail, the error raised by
`read_uploaded_file` is the spreadsheet error, not the original CSV
failure as the claim states: `raise e` re-raises the exception bound by
the inner `except`. -/
theorem read_uploaded_file_second_error_counterexample :
    read_uploaded_file csvFail excelFail 0 [] = Except.error "excel parse failure" ∧
    read_uploaded_file csvFail excelFail 0 [] ≠ Except.error "csv parse failure" := by
  constructor
  · rfl
  · intro h
    have he := Except.error.inj h
    simp at he

/-- C5 amended: `load` attempts CSV first, retries the spreadsheet
parser on a stream reset to position 0, and when both fail it raises the
error of the second (spreadsheet) attempt; no partial dataset is
returned and the error propagates to the caller. -/
theorem read_uploaded_file_propagates_spreadsheet_error
    (readCsv readExcel : StreamParser) (pos : ℕ) (data : List UInt8)
    (e1 e2 : String) (p1 p2 : ℕ)
    (h1 : readCsv pos data = (Except.error e1, p1))
    (h2 : readExcel 0 data = (Except.error e2, p2)) :
    read_uploaded_file readCsv readExcel pos data = Except.error e2 := by
  rw [read_uploaded_file, h1, h2]

/-- Witness for the amended C5 at the failing stub parsers. -/
theorem read_uploaded_file_propagates_spreadsheet_error_witness :
    csvFail 3 [7] = (Except.error "csv parse failure", 3) ∧
    excelFail 0 [7] = (Except.error "excel parse failure", 0) ∧
    read_uploaded_file csvFail excelFail 3 [7] = Except.error "excel parse failure" :=
  ⟨rfl, rfl, read_uploaded_file_propagates_spreadsheet_error _ _ _ _
    "csv parse failure" "excel parse failure" 3 0 rfl rfl⟩

/-- C6: normalizing the builtin fixture yields the 12 original columns
in order followed by `TotalIncome` and `Loan_Approved` (14 columns, each
of 10 rows), and the `C001` row (row 0) has `TotalIncome = 6900` and
`Loan_Approved = 1`. -/
theorem normalize_sample_end_to_end :
    (add_derived_columns load_sample_df).toOption.map keys =
      some (DEFAULT_COLS ++ ["TotalIncome", "Loan_Approved"]) ∧
    (add_derived_columns load_sample_df).toOption.map (fun d => (keys d).length) = some 14 ∧
    (add_derived_columns load_sample_df).toOption.map
      (fun d => d.all (fun p => p.2.length == 10)) = some true ∧
    (add_derived_columns load_sample_df).toOption.bind
      (fun d => (getCol d "Customer_ID").bind (fun l => l[0]?)) = some (Cell.str "C001") ∧
    (add_derived_columns load_sample_df).toOption.bind
      (fun d => (getCol d "TotalIncome").bind (fun l => l[0]?)) = some (Cell.num 6900) ∧
    (add_derived_columns load_sample_df).toOption.bind
      (fun d => (getCol d "Loan_Approved").bind (fun l => l[0]?)) = some (Cell.num 1) := by
  rw [normalize_sample]
  refine ⟨?_, ?_, ?_, ?_, ?_, ?_⟩ <;>
    simp [keys, DEFAULT_COLS, getCol, Except.toOption]

/-- Witness for C1 at a two-row dataset with a missing value in each
income column. -/
theorem totalIncome_eq_safe_sum_witness :
    getCol [("ApplicantIncome", [Cell.num 5, Cell.missing]),
        ("CoapplicantIncome", [Cell.missing, Cell.num 3])] "ApplicantIncome" =
      some [Cell.num 5, Cell.missing] ∧
    getCol [("ApplicantIncome", [Cell.num 5, Cell.missing]),
        ("CoapplicantIncome", [Cell.missing, Cell.num 3])] "CoapplicantIncome" =
      some [Cell.missing, Cell.num 3] ∧
    add_derived_columns [("ApplicantIncome", [Cell.num 5, Cell.missing]),
        ("CoapplicantIncome", [Cell.missing, Cell.num 3])] =
      Except.ok [("ApplicantIncome", [Cell.num 5, Cell.missing]),
        ("CoapplicantIncome", [Cell.missing, Cell.num 3]),
        ("TotalIncome", [Cell.num 5, Cell.num 3])] ∧
    getCol [("ApplicantIncome", [Cell.num 5, Cell.missing]),
        ("CoapplicantIncome", [Cell.missing, Cell.num 3]),
        ("TotalIncome", [Cell.num 5, Cell.num 3])] "TotalIncome" =
      some (List.zipWith (fun a c => Cell.num (safeVal a + safeVal c))
        [Cell.num 5, Cell.missing] [Cell.missing, Cell.num 3]) := by
  have hok : add_derived_columns [("ApplicantIncome", [Cell.num 5, Cell.missing]),
      ("CoapplicantIncome", [Cell.missing, Cell.num 3])] =
      Except.ok [("ApplicantIncome", [Cell.num 5, Cell.missing]),
        ("CoapplicantIncome", [Cell.missing, Cell.num 3]),
        ("TotalIncome", [Cell.num 5, Cell.num 3])] := by
    simp [add_derived_columns, coerceNumeric, numericCols, coerceStep, getCol, setCol, hasCol,
      totalIncomeCol, dfGet, fillnaZero, toNumericCell, fillna0Cell, cellAdd,
      Bind.bind, Except.bind, pure, Except.pure]
  exact ⟨rfl, rfl, hok,
    totalIncome_eq_safe_sum [("ApplicantIncome", [Cell.num 5, Cell.missing]),
      ("CoapplicantIncome", [Cell.missing, Cell.num 3])] _ _ _ rfl rfl hok⟩

/-- Witness for C2 at a dataset whose `Loan_Status` column holds
`" APPROVED "`, `"Rejected"`, the empty string and a missing value. -/
theorem loanApproved_iff_status_witness :
    ∃ d', add_derived_columns [("ApplicantIncome", [Cell.num 1, Cell.num 2, Cell.num 3, Cell.num 4]),
        ("CoapplicantIncome", [Cell.num 0, Cell.num 0, Cell.num 0, Cell.num 0]),
        ("Loan_Status", [Cell.str " APPROVED ", Cell.str "Rejected", Cell.str "", Cell.missing])] =
        Except.ok d' ∧
      (hasCol [("ApplicantIncome", [Cell.num 1, Cell.num 2, Cell.num 3, Cell.num 4]),
        ("CoapplicantIncome", [Cell.num 0, Cell.num 0, Cell.num 0, Cell.num 0]),
        ("Loan_Status", [Cell.str " APPROVED ", Cell.str "Rejected", Cell.str "", Cell.missing])]
          "Loan_Status" = false →
        hasCol d' "Loan_Approved" =
          hasCol [("ApplicantIncome", [Cell.num 1, Cell.num 2, Cell.num 3, Cell.num 4]),
            ("CoapplicantIncome", [Cell.num 0, Cell.num 0, Cell.num 0, Cell.num 0]),
            ("Loan_Status", [Cell.str " APPROVED ", Cell.str "Rejected", Cell.str "", Cell.missing])]
            "Loan_Approved") ∧
      (∀ st, getCol [("ApplicantIncome", [Cell.num 1, Cell.num 2, Cell.num 3, Cell.num 4]),
          ("CoapplicantIncome", [Cell.num 0, Cell.num 0, Cell.num 0, Cell.num 0]),
          ("Loan_Status", [Cell.str " APPROVED ", Cell.str "Rejected", Cell.str "", Cell.missing])]
            "Loan_Status" = some st →
        getCol d' "Loan_Approved" = some (st.map (fun c =>
          if strLower (strStrip (cellToStr c)) = "approved" then Cell.num 1
          else Cell.num 0))) :=
  loanApproved_iff_status [("ApplicantIncome", [Cell.num 1, Cell.num 2, Cell.num 3, Cell.num 4]),
    ("CoapplicantIncome", [Cell.num 0, Cell.num 0, Cell.num 0, Cell.num 0]),
    ("Loan_Status", [Cell.str " APPROVED ", Cell.str "Rejected", Cell.str "", Cell.missing])]
    _ _ rfl rfl

/-- Witness for C10 at a dataset with an unrelated `Foo` column in first
position. -/
theorem normalize_frame_preserves_other_columns_witness :
    add_derived_columns [("Foo", [Cell.str "x"]), ("ApplicantIncome", [Cell.num 1]),
        ("CoapplicantIncome", [Cell.num 2])] =
      Except.ok [("Foo", [Cell.str "x"]), ("ApplicantIncome", [Cell.num 1]),
        ("CoapplicantIncome", [Cell.num 2]), ("TotalIncome", [Cell.num 3])] ∧
    ([("Foo", [Cell.str "x"]), ("ApplicantIncome", [Cell.num 1]),
        ("CoapplicantIncome", [Cell.num 2])] : Dataset)[0]? = some ("Foo", [Cell.str "x"]) ∧
    "Foo" ∉ numericCols ∧ "Foo" ≠ "TotalIncome" ∧ "Foo" ≠ "Loan_Approved" ∧
    ([("Foo", [Cell.str "x"]), ("ApplicantIncome", [Cell.num 1]),
        ("CoapplicantIncome", [Cell.num 2]), ("TotalIncome", [Cell.num 3])] : Dataset)[0]? =
      some ("Foo", [Cell.str "x"]) := by
  have hok : add_derived_columns [("Foo", [Cell.str "x"]), ("ApplicantIncome", [Cell.num 1]),
      ("CoapplicantIncome", [Cell.num 2])] =
      Except.ok [("Foo", [Cell.str "x"]), ("ApplicantIncome", [Cell.num 1]),
        ("CoapplicantIncome", [Cell.num 2]), ("TotalIncome", [Cell.num 3])] := by
    simp [add_derived_columns, coerceNumeric, numericCols, coerceStep, getCol, setCol, hasCol,
      totalIncomeCol, dfGet, fillnaZero, toNumericCell, fillna0Cell, cellAdd,
      Bind.bind, Except.bind, pure, Except.pure]
    norm_num
  exact ⟨hok, rfl, by decide, by decide, by decide,
    normalize_frame_preserves_other_columns [("Foo", [Cell.str "x"]),
      ("ApplicantIncome", [Cell.num 1]), ("CoapplicantIncome", [Cell.num 2])] _ 0 _ _ hok rfl
      (by decide) (by decide) (by decide)⟩

/-- The full coercion loop keeps the key list. -/
theorem keys_coerceNumeric (df : Dataset) : keys (coerceNumeric df) = keys df := by
  rw [coerceNumeric, keys_foldl_coerce]

/-- Absence of a column means its name is not among the keys. -/
theorem not_mem_keys_of_hasCol_false {df : Dataset} {n : String}
    (h : hasCol df n = false) : n ∉ keys df := by
  intro hm
  rw [hasCol_iff_mem.mpr hm] at h
  exact absurd h (by decide)

/-- Column assignment preserves uniqueness of column names. -/
theorem nodup_keys_setCol {df : Dataset} {n : String} {cells : List Cell}
    (hnd : (keys df).Nodup) : (keys (setCol df n cells)).Nodup := by
  rw [keys_setCol]
  cases hc : hasCol df n with
  | true => simpa using hnd
  | false =>
      simp only [Bool.false_eq_true, if_neg, not_false_eq_true]
      rw [List.nodup_append]
      refine ⟨hnd, List.nodup_singleton n, ?_⟩
      intro x hx hx2
      simp only [List.mem_singleton] at hx2
      subst hx2
      exact not_mem_keys_of_hasCol_false hc hx

/-- A coercion step is the identity when the column content is already
fixed by coercion. -/
theorem coerceStep_eq_self {df : Dataset} {c : String}
    (hnd : (keys df).Nodup)
    (hfix : ∀ cells, getCol df c = some cells → cells.map toNumericCell = cells) :
    coerceStep df c = df := by
  cases hg : getCol df c with
  | none => simp [coerceStep, hg]
  | some cl =>
      simp only [coerceStep, hg]
      rw [hfix cl hg]
      exact setCol_eq_self hnd hg

/-- The coercion fold is the identity when every listed column is
already fixed by coercion. -/
theorem foldl_coerce_eq_self (names : List String) (df : Dataset)
    (hnd : (keys df).Nodup)
    (hfix : ∀ c ∈ names, ∀ cells, getCol df c = some cells → cells.map toNumericCell = cells) :
    names.foldl coerceStep df = df := by
  induction names with
  | nil => rfl
  | cons n names ih =>
      rw [List.foldl_cons, coerceStep_eq_self hnd (hfix n (List.mem_cons_self _ _))]
      exact ih (fun c hc => hfix c (List.mem_cons_of_mem _ hc))

/-- A dataset already in normalized shape is a fixed point of
`add_derived_columns`: coercion is the identity on it, its `TotalIncome`
column is the recomputed sum, and its `Loan_Approved` column (when
`Loan_Status` exists) is the recomputed flag. -/
theorem normalize_fixpoint (d2 : Dataset) (a c : List Cell)
    (knd2 : (keys d2).Nodup)
    (hfix : ∀ cN ∈ numericCols, ∀ cells, getCol d2 cN = some cells →
      cells.map toNumericCell = cells)
    (hA2 : getCol d2 "ApplicantIncome" = some a)
    (hC2 : getCol d2 "CoapplicantIncome" = some c)
    (hTI : getCol d2 "TotalIncome" =
      some (List.zipWith cellAdd (a.map fillna0Cell) (c.map fillna0Cell)))
    (hLA : hasCol d2 "Loan_Status" = true →
      getCol d2 "Loan_Approved" =
        some (((getCol d2 "Loan_Status").getD []).map loanApprovedFlag)) :
    add_derived_columns d2 = Except.ok d2 := by
  have hcoerce_id : coerceNumeric d2 = d2 := by
    rw [coerceNumeric]
    exact foldl_coerce_eq_self _ _ knd2 hfix
  have hti2 : totalIncomeCol (coerceNumeric d2) =
      Except.ok (List.zipWith cellAdd (a.map fillna0Cell) (c.map fillna0Cell)) := by
    rw [hcoerce_id]
    exact totalIncomeCol_eq hA2 hC2
  rw [add_derived_eq hti2, hcoerce_id]
  have hset : setCol d2 "TotalIncome"
      (List.zipWith cellAdd (a.map fillna0Cell) (c.map fillna0Cell)) = d2 :=
    setCol_eq_self knd2 hTI
  rw [hset]
  cases hls : hasCol d2 "Loan_Status" with
  | false => simp
  | true =>
      rw [if_pos rfl, setCol_eq_self knd2 (hLA hls)]

/-- C8: `normalize` is idempotent — on a dataset with unique column
names (the spec's Dataset invariant), re-running it on its own output
returns that output unchanged. -/
theorem normalize_idempotent (d d' : Dataset) (hnd : (keys d).Nodup)
    (h : add_derived_columns d = Except.ok d') :
    add_derived_columns d' = Except.ok d' := by
  obtain ⟨⟨as, hA⟩, ⟨cs, hC⟩⟩ := normalize_ok_incomes h
  obtain ⟨h1, h2⟩ := getCol_coerceNumeric_income d
  rw [hA, Option.map_some'] at h1
  rw [hC, Option.map_some'] at h2
  rw [add_derived_eq (totalIncomeCol_eq h1 h2)] at h
  set d1 : Dataset := coerceNumeric d with hd1d
  set ti : List Cell := List.zipWith cellAdd ((as.map toNumericCell).map fillna0Cell)
    ((cs.map toNumericCell).map fillna0Cell) with htid
  set d2 : Dataset := setCol d1 "TotalIncome" ti with hd2d
  have hne : ∀ cN ∈ numericCols, cN ≠ "TotalIncome" ∧ cN ≠ "Loan_Approved" := by decide
  have knd1 : (keys d1).Nodup := by rw [hd1d, keys_coerceNumeric]; exact hnd
  have knd2 : (keys d2).Nodup := by rw [hd2d]; exact nodup_keys_setCol knd1
  have hA2 : getCol d2 "ApplicantIncome" = some (as.map toNumericCell) := by
    rw [hd2d, getCol_setCol_ne _ _ _ _ (by decide)]
    exact h1
  have hC2 : getCol d2 "CoapplicantIncome" = some (cs.map toNumericCell) := by
    rw [hd2d, getCol_setCol_ne _ _ _ _ (by decide)]
    exact h2
  have hTI2 : getCol d2 "TotalIncome" = some ti := by
    rw [hd2d]; exact getCol_setCol_self _ _ _
  have hfix2 : ∀ cN ∈ numericCols, ∀ cells, getCol d2 cN = some cells →
      cells.map toNumericCell = cells := by
    intro cN hcN cells hcell
    rw [hd2d, getCol_setCol_ne _ _ _ _ (hne cN hcN).1, hd1d, coerceNumeric,
      getCol_foldl_coerce, if_pos hcN] at hcell
    rcases Option.map_eq_some'.mp hcell with ⟨X, hX, hXc⟩
    rw [← hXc]
    exact map_toNumericCell_idem X
  cases hls : hasCol d2 "Loan_Status" with
  | false =>
      have hcond : ¬ (hasCol d2 "Loan_Status" = true) := by
        rw [hls]
        decide
      rw [if_neg hcond] at h
      have hdd : d2 = d' := Except.ok.inj h
      subst hdd
      refine normalize_fixpoint d2 (as.map toNumericCell) (cs.map toNumericCell)
        knd2 hfix2 hA2 hC2 (by rw [hTI2, htid]) ?_
      intro hcon
      rw [hcon] at hls
      exact absurd hls (by decide)
  | true =>
      rw [if_pos hls] at h
      have hdd := Except.ok.inj h
      subst hdd
      refine normalize_fixpoint _ (as.map toNumericCell) (cs.map toNumericCell)
        (nodup_keys_setCol knd2) ?_ ?_ ?_ ?_ ?_
      · intro cN hcN cells hcell
        rw [getCol_setCol_ne _ _ _ _ (hne cN hcN).2] at hcell
        exact hfix2 cN hcN cells hcell
      · rw [getCol_setCol_ne _ _ _ _ (by decide)]
        exact hA2
      · rw [getCol_setCol_ne _ _ _ _ (by decide)]
        exact hC2
      · rw [getCol_setCol_ne _ _ _ _ (by decide), hTI2, htid]
      · intro _
        rw [getCol_setCol_self, getCol_setCol_ne d2 "Loan_Approved" "Loan_Status" _ (by decide)]

/-- Witness for C8 at a small two-column dataset. -/
theorem normalize_idempotent_witness :
    (keys [("ApplicantIncome", [Cell.num 1]), ("CoapplicantIncome", [Cell.missing])]).Nodup ∧
    add_derived_columns [("ApplicantIncome", [Cell.num 1]), ("CoapplicantIncome", [Cell.missing])] =
      Except.ok [("ApplicantIncome", [Cell.num 1]), ("CoapplicantIncome", [Cell.missing]),
        ("TotalIncome", [Cell.num 1])] ∧
    add_derived_columns [("ApplicantIncome", [Cell.num 1]), ("CoapplicantIncome", [Cell.missing]),
        ("TotalIncome", [Cell.num 1])] =
      Except.ok [("ApplicantIncome", [Cell.num 1]), ("CoapplicantIncome", [Cell.missing]),
        ("TotalIncome", [Cell.num 1])] := by
  have hok : add_derived_columns [("ApplicantIncome", [Cell.num 1]),
      ("CoapplicantIncome", [Cell.missing])] =
      Except.ok [("ApplicantIncome", [Cell.num 1]), ("CoapplicantIncome", [Cell.missing]),
        ("TotalIncome", [Cell.num 1])] := by
    simp [add_derived_columns, coerceNumeric, numericCols, coerceStep, getCol, setCol, hasCol,
      totalIncomeCol, dfGet, fillnaZero, toNumericCell, fillna0Cell, cellAdd,
      Bind.bind, Except.bind, pure, Except.pure]
  exact ⟨by decide,
    hok, normalize_idempotent [("ApplicantIncome", [Cell.num 1]),
      ("CoapplicantIncome", [Cell.missing])] _ (by decide) hok⟩
